import Mathlib

/-!
Shallow embedding of two MobX stores of the yoroi-frontend repository:

* `SettingsStore` (src/unnamed/part_000): locale / theme / custom-theme
  computed getters and the redirect-to-language-selection reaction.
* `TransactionsStore` (src/app/stores/base/TransactionsStore.js):
  per-wallet cached-request bundles, search options, the refresh loop and
  the transaction-export pipeline.

Asynchronous request objects are modelled by their observable surface
(`wasExecuted`, cached `result`) or, where object identity matters, by a
numeric identity allocated from a fresh counter threaded through the
state.  Stateful methods become explicit state-passing functions;
emitted action-bus triggers are recorded in the returned state.
-/

/- ------------------------------------------------------------------ -/
/- Settings store (src/unnamed/part_000)                               -/
/- ------------------------------------------------------------------ -/

/-- Observable surface of a `LocalizedRequest` handed to the settings
store: `wasExecuted` and the cached `result` (`none` models JS `null`;
the stored value itself is a string). -/
structure LocalizedRequestState where
  wasExecuted : Bool
  result : Option String
deriving DecidableEq

/-- Modelled from the spec: the named default theme constant
`THEMES.YOROI_CLASSIC` from `themes/index`, which is not under `src/`;
only its identity matters to the store logic. -/
def THEMES_YOROI_CLASSIC : String := "YoroiClassic"

/-- `isCurrentLocaleSet` (part_000 line 82): the locale get-request's
result is neither `null` nor the empty string. -/
def isCurrentLocaleSet (r : LocalizedRequestState) : Bool :=
  r.result != none && r.result != some ""

/-- `hasLoadedCurrentLocale` (part_000 line 76): the locale get-request
was executed and its result is not `null`. -/
def hasLoadedCurrentLocale (r : LocalizedRequestState) : Bool :=
  r.wasExecuted && r.result != none

/-- `currentLocale` (part_000 line 70): reads the (re-executed) locale
get-request's cached result; returns it when set, else the default
`'en-US'`.  When `isCurrentLocaleSet` holds the result is `some l`, so
the `getD` default is never taken in that branch. -/
def currentLocale (r : LocalizedRequestState) : String :=
  if isCurrentLocaleSet r then r.result.getD "en-US" else "en-US"

/-- `isCurrentThemeSet` (part_000 line 99). -/
def isCurrentThemeSet (r : LocalizedRequestState) : Bool :=
  r.result != none && r.result != some ""

/-- `currentTheme` (part_000 line 86): the theme get-request's cached
result when set, else the default `THEMES.YOROI_CLASSIC`. -/
def currentTheme (r : LocalizedRequestState) : String :=
  if isCurrentThemeSet r then r.result.getD THEMES_YOROI_CLASSIC
  else THEMES_YOROI_CLASSIC

/-- Value of `currentThemeVars` (part_000 line 92): either the result of
`JSON.parse` applied to the custom-theme request's raw cached value
(`jsonParse none` models `JSON.parse(null)`, which evaluates to `null`),
or the prebuilt theme variables `getThemeVars({theme})`. -/
inductive ThemeVars where
  | jsonParse (raw : Option String)
  | prebuilt (theme : String)
deriving DecidableEq

/-- `currentThemeVars` (part_000 line 92): if the custom-theme request's
cached result is not exactly the empty string (including when it is
`null`), return `JSON.parse(result)`; only on exactly `''` fall back to
the prebuilt variables of `currentTheme`. -/
def currentThemeVars (customReq themeReq : LocalizedRequestState) : ThemeVars :=
  if customReq.result != some "" then ThemeVars.jsonParse customReq.result
  else ThemeVars.prebuilt (currentTheme themeReq)

/-- Guard of `_redirectToLanguageSelectionIfNoLocaleSet` (part_000 line
189): the route change to the language-selection screen is triggered
exactly when the app is not loading, the locale read has completed, and
the locale is not set. -/
def redirectToLanguageSelectionFires (isLoading : Bool)
    (r : LocalizedRequestState) : Bool :=
  !isLoading && hasLoadedCurrentLocale r && !(isCurrentLocaleSet r)

/- ------------------------------------------------------------------ -/
/- Settings store theorems: C4, C7, C10                                -/
/- ------------------------------------------------------------------ -/

/-- C4 counterexample: with the app still in the loading state
(`isLoading = true`), a completed locale read (`wasExecuted`, result
`''`) and an unset locale, the claimed condition (read completed and
locale unset) holds, yet the reaction does not trigger the route
change: the claimed "if and only if" is false because the guard also
requires `!isLoading`. -/
theorem redirect_iff_claim_false :
    (hasLoadedCurrentLocale ⟨true, some ""⟩ = true
      ∧ isCurrentLocaleSet ⟨true, some ""⟩ = false)
    ∧ redirectToLanguageSelectionFires true ⟨true, some ""⟩ = false := by
  decide

/-- C4 (amended): the redirect-to-language-selection reaction triggers
the route change iff the app is not loading, the locale read has
completed (`wasExecuted` with non-null result) and the locale is unset
(result exactly `''`); in particular it never fires while the locale
read is still pending. -/
theorem redirect_fires_iff (isLoading : Bool) (r : LocalizedRequestState) :
    (redirectToLanguageSelectionFires isLoading r = true
      ↔ isLoading = false ∧ r.wasExecuted = true ∧ r.result = some "")
    ∧ (r.wasExecuted = false
        → redirectToLanguageSelectionFires isLoading r = false) := by
  constructor
  · unfold redirectToLanguageSelectionFires hasLoadedCurrentLocale isCurrentLocaleSet
    cases isLoading <;> cases r with
    | mk w res =>
      cases w <;> cases res <;> simp_all
  · intro h
    unfold redirectToLanguageSelectionFires hasLoadedCurrentLocale
    simp [h]

/-- C4 amended-theorem witness at a concrete pending read. -/
theorem redirect_fires_iff_witness :
    redirectToLanguageSelectionFires false ⟨false, none⟩ = false :=
  (redirect_fires_iff false ⟨false, none⟩).2 rfl

/-- C7: whenever the locale get-request's cached result is `''` or
`null`, `currentLocale` returns the default `'en-US'`, and whenever the
theme get-request's cached result is `''` or `null`, `currentTheme`
returns the default `THEMES.YOROI_CLASSIC` — never the raw empty/null
value. -/
theorem currentLocale_currentTheme_default (lr tr : LocalizedRequestState)
    (hl : lr.result = none ∨ lr.result = some "")
    (ht : tr.result = none ∨ tr.result = some "") :
    currentLocale lr = "en-US" ∧ currentTheme tr = THEMES_YOROI_CLASSIC := by
  constructor
  · unfold currentLocale isCurrentLocaleSet
    rcases hl with h | h <;> simp [h]
  · unfold currentTheme isCurrentThemeSet
    rcases ht with h | h <;> simp [h]

/-- C7 witness: concrete null locale result and empty theme result. -/
theorem currentLocale_currentTheme_default_witness :
    currentLocale ⟨true, none⟩ = "en-US"
      ∧ currentTheme ⟨true, some ""⟩ = THEMES_YOROI_CLASSIC :=
  currentLocale_currentTheme_default ⟨true, none⟩ ⟨true, some ""⟩
    (Or.inl rfl) (Or.inr rfl)

/-- C10: when the custom-theme get-request's cached result is `null`,
`currentThemeVars` is `JSON.parse(null)` (i.e. `null`), not the
prebuilt default theme variables; and the prebuilt fallback is taken
exactly when the cached result is the empty string `''`. -/
theorem currentThemeVars_null_and_fallback
    (c t : LocalizedRequestState) :
    (c.result = none → currentThemeVars c t = ThemeVars.jsonParse none)
    ∧ ((∃ th, currentThemeVars c t = ThemeVars.prebuilt th)
        ↔ c.result = some "") := by
  constructor
  · intro h
    unfold currentThemeVars
    simp [h]
  · unfold currentThemeVars
    by_cases h : c.result = some "" <;> simp [h]

/-- C10 witness: concrete unresolved (`null`) custom-theme result. -/
theorem currentThemeVars_null_witness :
    currentThemeVars ⟨false, none⟩ ⟨true, some "x"⟩ = ThemeVars.jsonParse none :=
  (currentThemeVars_null_and_fallback ⟨false, none⟩ ⟨true, some "x"⟩).1 rfl

/- ------------------------------------------------------------------ -/
/- Transactions store: export pipeline (TransactionsStore.js 221-275)  -/
/- ------------------------------------------------------------------ -/

/-- A `LocalizableError` (i18n domain error), identified by its
message id.  Modelled from the spec for the two instances the store
constructs: the message ids live in `i18n/global-messages` and
`i18n/LocalizableError`, which are not under `src/`. -/
inductive LocalizableError where
  | mk (message : String)
deriving DecidableEq

/-- `globalMessages.noTransactionsFound`, wrapped in `LocalizableError`
at TransactionsStore.js line 234. -/
def noTransactionsFoundError : LocalizableError :=
  LocalizableError.mk "noTransactionsFound"

/-- `new UnexpectedError()` (TransactionsStore.js line 249), the
generic localizable error wrapping non-domain failures. -/
def unexpectedError : LocalizableError :=
  LocalizableError.mk "unexpectedError"

/-- A JavaScript exception as classified by the catch block at line
248: either an `instanceof LocalizableError`, or anything else. -/
inductive JsError where
  | localizable (e : LocalizableError)
  | other
deriving DecidableEq

/-- The catch block's classification (lines 247-250): a domain error is
stored as-is, any other value is replaced by `new UnexpectedError()`. -/
def classifyError (e : JsError) : LocalizableError :=
  match e with
  | JsError.localizable l => l
  | JsError.other => unexpectedError

/-- Observable status of one of the two `LocalizedRequest` objects used
by the export pipeline: `idle` after `reset()`, `executed` after
`execute(...)`. -/
inductive ReqStatus where
  | idle
  | executed
deriving DecidableEq

/-- The part of the transactions-store state the export pipeline and
the close-dialog handler touch.  `dialogClosed` records an emitted
`dialogs.closeActiveDialog` trigger; `unhandledRejection` records a
promise rejection that no handler caught. -/
structure ExportState where
  isExporting : Bool
  exportError : Option LocalizableError
  rowsReq : ReqStatus
  exportReq : ReqStatus
  dialogClosed : Bool
  unhandledRejection : Bool
deriving DecidableEq

/-- Outcome of `getTransactionRowsToExportRequest.execute(params).promise`
(line 231): resolution with a row list (or `null`), or rejection. -/
inductive FetchOutcome where
  | ok (rows : Option (List String))
  | err (e : JsError)
deriving DecidableEq

/-- Outcome of `exportTransactions.execute(req).promise` awaited inside
the `setTimeout` callback (line 241). -/
inductive ExportOutcome where
  | ok
  | err
deriving DecidableEq

/-- `_exportTransactionsToFile` (lines 221-259) up to the settling of
the async method itself: set the exporting flag, reset both requests,
execute the row fetch; zero or `null` rows raise the
`noTransactionsFound` domain error; any raised error is classified and
stored and the exporting flag cleared; the `finally` clause resets both
requests on every path.  On the success path a `setTimeout` callback is
scheduled (returned `Bool`) and the method settles with the exporting
flag still set. -/
def exportSettle (s : ExportState) (fetch : FetchOutcome) :
    ExportState × Bool :=
  let s0 := { s with isExporting := true,
                     rowsReq := ReqStatus.idle,
                     exportReq := ReqStatus.idle }
  match fetch with
  | FetchOutcome.err e =>
      let s1 := { s0 with rowsReq := ReqStatus.executed }
      let s2 := { s1 with exportError := some (classifyError e),
                          isExporting := false }
      ({ s2 with rowsReq := ReqStatus.idle, exportReq := ReqStatus.idle },
        false)
  | FetchOutcome.ok rows =>
      let s1 := { s0 with rowsReq := ReqStatus.executed }
      match rows with
      | none =>
          let s2 := { s1 with
            exportError :=
              some (classifyError (JsError.localizable noTransactionsFoundError)),
            isExporting := false }
          ({ s2 with rowsReq := ReqStatus.idle, exportReq := ReqStatus.idle },
            false)
      | some rs =>
          if rs.length < 1 then
            let s2 := { s1 with
              exportError :=
                some (classifyError (JsError.localizable noTransactionsFoundError)),
              isExporting := false }
            ({ s2 with rowsReq := ReqStatus.idle, exportReq := ReqStatus.idle },
              false)
          else
            ({ s1 with rowsReq := ReqStatus.idle, exportReq := ReqStatus.idle },
              true)

/-- The `setTimeout` callback (lines 237-244): awaits the file-export
request; on resolution clears the exporting flag and triggers the
dialog close; on rejection the `await` throws inside the callback,
nothing catches it, and the remaining statements never run. -/
def exportTimer (s : ExportState) (out : ExportOutcome) : ExportState :=
  let s1 := { s with exportReq := ReqStatus.executed }
  match out with
  | ExportOutcome.ok =>
      { s1 with isExporting := false, dialogClosed := true }
  | ExportOutcome.err =>
      { s1 with unhandledRejection := true }

/-- A whole export run: the async method settles, then the scheduled
callback (if any) fires after the 800 ms delay. -/
def exportRun (s : ExportState) (fetch : FetchOutcome)
    (out : ExportOutcome) : ExportState :=
  match exportSettle s fetch with
  | (s1, false) => s1
  | (s1, true) => exportTimer s1 out

/-- `_closeExportTransactionDialog` (lines 269-275): only when not
exporting, trigger the dialog close, clear the exporting flag and the
export error. -/
def closeExportTransactionDialog (s : ExportState) : ExportState :=
  if !s.isExporting then
    { s with dialogClosed := true,
             isExporting := false,
             exportError := none }
  else s

/- ------------------------------------------------------------------ -/
/- Export theorems: C2, C3, C8                                         -/
/- ------------------------------------------------------------------ -/

/-- C2: after `_exportTransactionsToFile` settles, (a) a row fetch that
returned zero rows or `null` leaves the `noTransactionsFound` domain
error stored and the exporting flag cleared, and (b) a row fetch that
threw a non-domain error leaves the generic `UnexpectedError` stored
and the exporting flag cleared. -/
theorem exportSettle_failure_paths (s : ExportState)
    (rows : Option (List String))
    (hz : rows = none ∨ rows = some []) :
    ((exportSettle s (FetchOutcome.ok rows)).1.exportError
        = some noTransactionsFoundError
      ∧ (exportSettle s (FetchOutcome.ok rows)).1.isExporting = false)
    ∧ ((exportSettle s (FetchOutcome.err JsError.other)).1.exportError
        = some unexpectedError
      ∧ (exportSettle s (FetchOutcome.err JsError.other)).1.isExporting
        = false) := by
  constructor
  · rcases hz with h | h <;> subst h <;>
      simp [exportSettle, classifyError]
  · simp [exportSettle, classifyError]

/-- C2 witness at a concrete initial state and `null` row result. -/
theorem exportSettle_failure_paths_witness :
    ((exportSettle ⟨false, none, ReqStatus.idle, ReqStatus.idle, false, false⟩
        (FetchOutcome.ok none)).1.exportError
      = some noTransactionsFoundError
    ∧ (exportSettle ⟨false, none, ReqStatus.idle, ReqStatus.idle, false, false⟩
        (FetchOutcome.ok none)).1.isExporting = false)
    ∧ ((exportSettle ⟨false, none, ReqStatus.idle, ReqStatus.idle, false, false⟩
        (FetchOutcome.err JsError.other)).1.exportError = some unexpectedError
      ∧ (exportSettle ⟨false, none, ReqStatus.idle, ReqStatus.idle, false, false⟩
        (FetchOutcome.err JsError.other)).1.isExporting = false) :=
  exportSettle_failure_paths
    ⟨false, none, ReqStatus.idle, ReqStatus.idle, false, false⟩ none (Or.inl rfl)

/-- C3 (code bug): when the row fetch succeeds with a non-empty row
list but the delayed `exportTransactions.execute` call rejects inside
the `setTimeout` callback, the rejection is uncaught: the run ends with
`isExporting` still `true`, no error stored, the dialog not closed, and
an unhandled promise rejection — the transition out of the Exporting
state does not clear `isExporting` and the failure is not caught. -/
theorem exportRun_timer_failure_leaves_exporting :
    (exportRun ⟨false, none, ReqStatus.idle, ReqStatus.idle, false, false⟩
        (FetchOutcome.ok (some ["row1"])) ExportOutcome.err).isExporting = true
    ∧ (exportRun ⟨false, none, ReqStatus.idle, ReqStatus.idle, false, false⟩
        (FetchOutcome.ok (some ["row1"])) ExportOutcome.err).exportError = none
    ∧ (exportRun ⟨false, none, ReqStatus.idle, ReqStatus.idle, false, false⟩
        (FetchOutcome.ok (some ["row1"])) ExportOutcome.err).dialogClosed = false
    ∧ (exportRun ⟨false, none, ReqStatus.idle, ReqStatus.idle, false, false⟩
        (FetchOutcome.ok (some ["row1"])) ExportOutcome.err).unhandledRejection
      = true := by
  decide

/-- C8: while `isExporting` is `true`, `closeExportTransactionDialog`
changes nothing: the state (including `exportError` and the
dialog-close trigger record) is returned unchanged. -/
theorem closeExportTransactionDialog_noop_while_exporting
    (s : ExportState) (h : s.isExporting = true) :
    closeExportTransactionDialog s = s := by
  simp [closeExportTransactionDialog, h]

/-- C8 witness at a concrete exporting state with a stored error. -/
theorem closeExportTransactionDialog_noop_witness :
    closeExportTransactionDialog
        ⟨true, some unexpectedError, ReqStatus.idle, ReqStatus.idle,
          false, false⟩
      = ⟨true, some unexpectedError, ReqStatus.idle, ReqStatus.idle,
          false, false⟩ :=
  closeExportTransactionDialog_noop_while_exporting
    ⟨true, some unexpectedError, ReqStatus.idle, ReqStatus.idle, false, false⟩
    rfl

/- ------------------------------------------------------------------ -/
/- Transactions store: request bundles and search options              -/
/- (TransactionsStore.js lines 31-219)                                 -/
/- ------------------------------------------------------------------ -/

/-- `INITIAL_SEARCH_LIMIT` (TransactionsStore.js line 31). -/
def INITIAL_SEARCH_LIMIT : Nat := 5

/-- `SEARCH_LIMIT_INCREASE` (line 34). -/
def SEARCH_LIMIT_INCREASE : Nat := 5

/-- `SEARCH_SKIP` (line 37). -/
def SEARCH_SKIP : Nat := 0

/-- A per-wallet `{limit, skip}` pair (`GetTransactionsRequesOptions`). -/
structure SearchOptions where
  limit : Nat
  skip : Nat
deriving DecidableEq

/-- One entry of `transactionsRequests` (lines 40-46).  Each
`CachedRequest` object is modelled by its identity, a number allocated
from the store's fresh counter: equal numbers mean the same JS object. -/
structure TxRequestBundle where
  walletId : String
  pendingRequest : Nat
  recentRequest : Nat
  allRequest : Nat
  getBalanceRequest : Nat
deriving DecidableEq

/-- The execute parameters of a recent-transactions request
(`GetTransactionsRequest`, lines 145-149). -/
structure GetTransactionsParams where
  walletId : String
  limit : Nat
  skip : Nat
deriving DecidableEq

/-- The transactions-store state touched by the bundle / search-option
logic: the tracked bundles, the per-wallet search-options map
(`_searchOptionsForWallets`, an object keyed by wallet id, hence an
association list whose keys are never duplicated), and the fresh
counter for allocating new `CachedRequest` identities. -/
structure TxStoreState where
  transactionsRequests : List TxRequestBundle
  searchOptionsForWallets : List (String × SearchOptions)
  nextReqId : Nat
deriving DecidableEq

/-- `_.find(this.transactionsRequests, { walletId })` (lines 194, 202,
210, 216). -/
def findTxRequest (reqs : List TxRequestBundle) (walletId : String) :
    Option TxRequestBundle :=
  reqs.find? (fun b => b.walletId == walletId)

/-- `_getTransactionsPendingRequest` (lines 193-197): the tracked
bundle's request when found, else a new `CachedRequest` (fresh
identity, counter advanced). -/
def getTransactionsPendingRequest (reqs : List TxRequestBundle)
    (ctr : Nat) (walletId : String) : Nat × Nat :=
  match findTxRequest reqs walletId with
  | some b => (b.pendingRequest, ctr)
  | none => (ctr, ctr + 1)

/-- `_getTransactionsRecentRequest` (lines 201-205). -/
def getTransactionsRecentRequest (reqs : List TxRequestBundle)
    (ctr : Nat) (walletId : String) : Nat × Nat :=
  match findTxRequest reqs walletId with
  | some b => (b.recentRequest, ctr)
  | none => (ctr, ctr + 1)

/-- `_getTransactionsAllRequest` (lines 209-213). -/
def getTransactionsAllRequest (reqs : List TxRequestBundle)
    (ctr : Nat) (walletId : String) : Nat × Nat :=
  match findTxRequest reqs walletId with
  | some b => (b.allRequest, ctr)
  | none => (ctr, ctr + 1)

/-- `_getBalanceRequest` (lines 215-219). -/
def getBalanceRequest (reqs : List TxRequestBundle)
    (ctr : Nat) (walletId : String) : Nat × Nat :=
  match findTxRequest reqs walletId with
  | some b => (b.getBalanceRequest, ctr)
  | none => (ctr, ctr + 1)

/-- One element of the `walletIds.map(...)` literal in
`updateObservedWallets` (lines 183-189): the four getters are evaluated
against the pre-assignment bundle list, in the literal's order
(recent, all, balance, pending). -/
def mkTxRequestBundle (old : List TxRequestBundle) (ctr : Nat)
    (walletId : String) : TxRequestBundle × Nat :=
  let r1 := getTransactionsRecentRequest old ctr walletId
  let r2 := getTransactionsAllRequest old r1.2 walletId
  let r3 := getBalanceRequest old r2.2 walletId
  let r4 := getTransactionsPendingRequest old r3.2 walletId
  (⟨walletId, r4.1, r1.1, r2.1, r3.1⟩, r4.2)

/-- The whole `walletIds.map(...)` of lines 183-189, threading the
fresh counter left to right; every lookup sees the old bundle list. -/
def mkTxRequestBundles (old : List TxRequestBundle) (ctr : Nat) :
    List String → List TxRequestBundle × Nat
  | [] => ([], ctr)
  | wid :: rest =>
      let hd := mkTxRequestBundle old ctr wid
      let tl := mkTxRequestBundles old hd.2 rest
      (hd.1 :: tl.1, tl.2)

/-- The `searchOptions` computed getter (lines 84-99) for a given
active wallet: `none` when no wallet is active; otherwise the wallet's
options, created with the initial limit and skip (and stored) on first
access. -/
def searchOptionsGet (s : TxStoreState) (active : Option String) :
    Option SearchOptions × TxStoreState :=
  match active with
  | none => (none, s)
  | some wid =>
      match s.searchOptionsForWallets.find? (fun p => p.1 == wid) with
      | some p => (some p.2, s)
      | none =>
          let o : SearchOptions := ⟨INITIAL_SEARCH_LIMIT, SEARCH_SKIP⟩
          (some o,
            { s with searchOptionsForWallets :=
                s.searchOptionsForWallets ++ [(wid, o)] })

/-- `_refreshTransactionData` (lines 133-177) restricted to its
synchronous effects: for each wallet of the wallets store, re-read the
active wallet's search options (defaulting to the initial limit and
skip when no wallet is active), execute the recent request with those
parameters (recorded in the returned list) and the all request with the
wallet id alone; untracked wallet ids make the getters allocate fresh
request objects, advancing the counter.  The promise continuation
chained on the all request (pending request, balance) runs later and
touches none of the state modelled here. -/
def refreshTransactionData (active : Option String) :
    TxStoreState → List String → TxStoreState × List GetTransactionsParams
  | s, [] => (s, [])
  | s, wid :: rest =>
      let os := searchOptionsGet s active
      let limit := match os.1 with
        | some o => o.limit
        | none => INITIAL_SEARCH_LIMIT
      let skip := match os.1 with
        | some o => o.skip
        | none => SEARCH_SKIP
      let r1 :=
        getTransactionsRecentRequest os.2.transactionsRequests os.2.nextReqId wid
      let r2 :=
        getTransactionsAllRequest os.2.transactionsRequests r1.2 wid
      let s2 := { os.2 with nextReqId := r2.2 }
      let rest2 := refreshTransactionData active s2 rest
      (rest2.1, ⟨wid, limit, skip⟩ :: rest2.2)

/-- `updateObservedWallets` (lines 180-191): replace
`transactionsRequests` with one bundle per given wallet id (the map of
lines 183-189), then run `_refreshTransactionData` over the wallets
store's wallet list. -/
def updateObservedWallets (s : TxStoreState) (active : Option String)
    (allWallets : List String) (walletIds : List String) : TxStoreState :=
  let bs := mkTxRequestBundles s.transactionsRequests s.nextReqId walletIds
  let s1 := { s with transactionsRequests := bs.1, nextReqId := bs.2 }
  (refreshTransactionData active s1 allWallets).1

/-- Write-back of `this.searchOptions.limit += ...` (line 71): the
options object returned by the getter lives in
`_searchOptionsForWallets`, so mutating its `limit` updates the map
entry. -/
def setSearchLimit (s : TxStoreState) (wid : String) (newLimit : Nat) :
    TxStoreState :=
  { s with searchOptionsForWallets :=
      s.searchOptionsForWallets.map (fun p =>
        if p.1 == wid then (p.1, { p.2 with limit := newLimit }) else p) }

/-- `_increaseSearchLimit` (lines 69-74): when `searchOptions` is
non-null (exactly when a wallet is active), add the fixed increment to
its limit and refresh. -/
def increaseSearchLimit (s : TxStoreState) (active : Option String)
    (allWallets : List String) : TxStoreState :=
  match active with
  | none => s
  | some wid =>
      let os := searchOptionsGet s (some wid)
      match os.1 with
      | none => os.2
      | some o =>
          let s2 := setSearchLimit os.2 wid (o.limit + SEARCH_LIMIT_INCREASE)
          (refreshTransactionData (some wid) s2 allWallets).1

/-- The limit a wallet's search options expose: the stored limit, or
the initial limit the getter would create on first access. -/
def walletLimit (s : TxStoreState) (wid : String) : Nat :=
  match s.searchOptionsForWallets.find? (fun p => p.1 == wid) with
  | some p => p.2.limit
  | none => INITIAL_SEARCH_LIMIT

/-- The skip a wallet's search options expose. -/
def walletSkip (s : TxStoreState) (wid : String) : Nat :=
  match s.searchOptionsForWallets.find? (fun p => p.1 == wid) with
  | some p => p.2.skip
  | none => SEARCH_SKIP

/-- The `{limit, skip}` pair `_refreshTransactionData` uses for every
wallet: the active wallet's search options, or the initial constants
when no wallet is active (lines 139-144). -/
def activeSearchPair (s : TxStoreState) (active : Option String) :
    Nat × Nat :=
  match active with
  | none => (INITIAL_SEARCH_LIMIT, SEARCH_SKIP)
  | some w => (walletLimit s w, walletSkip s w)

/-- The store operations that can touch the search-options map or the
bundle list, each parametrised by the active wallet and the wallets
store's wallet list as seen during the call. -/
inductive TxStoreOp where
  | increaseLimit (active : Option String) (allWallets : List String)
  | readSearchOptions (active : Option String)
  | refreshData (active : Option String) (allWallets : List String)
  | updateObserved (active : Option String) (allWallets : List String)
      (walletIds : List String)

/-- One store operation applied to the state. -/
def stepTxStore (s : TxStoreState) : TxStoreOp → TxStoreState
  | TxStoreOp.increaseLimit a ws => increaseSearchLimit s a ws
  | TxStoreOp.readSearchOptions a => (searchOptionsGet s a).2
  | TxStoreOp.refreshData a ws => (refreshTransactionData a s ws).1
  | TxStoreOp.updateObserved a ws ids => updateObservedWallets s a ws ids

/-- A sequence of store operations applied left to right. -/
def runTxStore (s : TxStoreState) : List TxStoreOp → TxStoreState
  | [] => s
  | op :: ops => runTxStore (stepTxStore s op) ops

/-- All `CachedRequest` identities referenced by a bundle. -/
def bundleReqIds (b : TxRequestBundle) : List Nat :=
  [b.pendingRequest, b.recentRequest, b.allRequest, b.getBalanceRequest]

/-- All `CachedRequest` identities referenced by the tracked bundles. -/
def stateReqIds (s : TxStoreState) : List Nat :=
  s.transactionsRequests.flatMap bundleReqIds

/-- Well-formedness: every request identity held by a bundle was
allocated below the fresh counter, so a counter value ≥ `nextReqId`
denotes an object distinct from every tracked one. -/
def wfTxStore (s : TxStoreState) : Prop :=
  ∀ i ∈ stateReqIds s, i < s.nextReqId

/- ------------------------------------------------------------------ -/
/- Helper lemmas on the transactions-store model                       -/
/- ------------------------------------------------------------------ -/

theorem searchOptionsGet_transactionsRequests (s : TxStoreState)
    (a : Option String) :
    (searchOptionsGet s a).2.transactionsRequests = s.transactionsRequests := by
  unfold searchOptionsGet
  cases a with
  | none => rfl
  | some wid =>
      cases h : s.searchOptionsForWallets.find? (fun p => p.1 == wid) <;>
        simp [h]

theorem refreshTransactionData_transactionsRequests (a : Option String)
    (ws : List String) (s : TxStoreState) :
    (refreshTransactionData a s ws).1.transactionsRequests
      = s.transactionsRequests := by
  induction ws generalizing s with
  | nil => rfl
  | cons wid rest ih =>
      show (refreshTransactionData a _ rest).1.transactionsRequests = _
      rw [ih, searchOptionsGet_transactionsRequests]

theorem mkTxRequestBundle_walletId (old : List TxRequestBundle)
    (ctr : Nat) (wid : String) :
    (mkTxRequestBundle old ctr wid).1.walletId = wid := rfl

theorem mkTxRequestBundles_map_walletId (old : List TxRequestBundle)
    (W : List String) (ctr : Nat) :
    (mkTxRequestBundles old ctr W).1.map (fun b => b.walletId) = W := by
  induction W generalizing ctr with
  | nil => rfl
  | cons wid rest ih =>
      show ((mkTxRequestBundle old ctr wid).1
          :: (mkTxRequestBundles old _ rest).1).map (fun b => b.walletId) = _
      rw [List.map_cons, mkTxRequestBundle_walletId, ih]

theorem updateObservedWallets_map_walletId (s : TxStoreState)
    (active : Option String) (allWallets W : List String) :
    (updateObservedWallets s active allWallets W).transactionsRequests.map
        (fun b => b.walletId) = W := by
  unfold updateObservedWallets
  rw [refreshTransactionData_transactionsRequests,
    mkTxRequestBundles_map_walletId]

theorem findTxRequest_some_walletId {reqs : List TxRequestBundle}
    {wid : String} {b : TxRequestBundle}
    (h : findTxRequest reqs wid = some b) : b.walletId = wid := by
  unfold findTxRequest at h
  have := List.find?_some h
  simpa using this

theorem mkTxRequestBundle_found (old : List TxRequestBundle) (ctr : Nat)
    (wid : String) (b0 : TxRequestBundle)
    (h : findTxRequest old wid = some b0) :
    mkTxRequestBundle old ctr wid = (b0, ctr) := by
  have hw := findTxRequest_some_walletId h
  cases b0 with
  | mk w p r a g =>
      simp only [TxRequestBundle.walletId] at hw
      subst hw
      simp [mkTxRequestBundle, getTransactionsRecentRequest,
        getTransactionsAllRequest, getBalanceRequest,
        getTransactionsPendingRequest, h]

theorem mkTxRequestBundle_none (old : List TxRequestBundle) (ctr : Nat)
    (wid : String) (h : findTxRequest old wid = none) :
    mkTxRequestBundle old ctr wid
      = (⟨wid, ctr + 3, ctr, ctr + 1, ctr + 2⟩, ctr + 4) := by
  simp [mkTxRequestBundle, getTransactionsRecentRequest,
    getTransactionsAllRequest, getBalanceRequest,
    getTransactionsPendingRequest, h]

theorem mkTxRequestBundle_ctr_le (old : List TxRequestBundle) (ctr : Nat)
    (wid : String) : ctr ≤ (mkTxRequestBundle old ctr wid).2 := by
  cases h : findTxRequest old wid with
  | some b0 => rw [mkTxRequestBundle_found old ctr wid b0 h]
  | none => rw [mkTxRequestBundle_none old ctr wid h]; omega

theorem mkTxRequestBundles_ctr_le (old : List TxRequestBundle)
    (W : List String) (ctr : Nat) :
    ctr ≤ (mkTxRequestBundles old ctr W).2 := by
  induction W generalizing ctr with
  | nil => exact Nat.le_refl _
  | cons wid rest ih =>
      exact Nat.le_trans (mkTxRequestBundle_ctr_le old ctr wid) (ih _)

/-- Every bundle the `walletIds.map` of `updateObservedWallets` builds
either is exactly the pre-existing bundle for its wallet id, or (when no
bundle for that id existed) holds only request identities allocated at
or above the starting counter. -/
theorem mkTxRequestBundles_spec (old : List TxRequestBundle)
    (W : List String) (ctr : Nat) (b : TxRequestBundle)
    (hb : b ∈ (mkTxRequestBundles old ctr W).1) :
    (∃ b0, findTxRequest old b.walletId = some b0 ∧ b = b0)
    ∨ (findTxRequest old b.walletId = none
        ∧ ∀ i ∈ bundleReqIds b, ctr ≤ i) := by
  induction W generalizing ctr with
  | nil => simp [mkTxRequestBundles] at hb
  | cons wid rest ih =>
      have hb2 : b = (mkTxRequestBundle old ctr wid).1
          ∨ b ∈ (mkTxRequestBundles old (mkTxRequestBundle old ctr wid).2 rest).1 := by
        simpa [mkTxRequestBundles] using hb
      rcases hb2 with hb2 | hb2
      · cases h : findTxRequest old wid with
        | some b0 =>
            rw [mkTxRequestBundle_found old ctr wid b0 h] at hb2
            refine Or.inl ⟨b0, ?_, hb2⟩
            rw [hb2, findTxRequest_some_walletId h]
            exact h
        | none =>
            rw [mkTxRequestBundle_none old ctr wid h] at hb2
            subst hb2
            refine Or.inr ⟨h, ?_⟩
            intro i hi
            simp [bundleReqIds] at hi
            rcases hi with hi | hi | hi | hi <;> omega
      · rcases ih _ hb2 with h | ⟨h, hge⟩
        · exact Or.inl h
        · refine Or.inr ⟨h, fun i hi => ?_⟩
          exact Nat.le_trans (mkTxRequestBundle_ctr_le old ctr wid) (hge i hi)

theorem updateObservedWallets_transactionsRequests (s : TxStoreState)
    (active : Option String) (allWallets W : List String) :
    (updateObservedWallets s active allWallets W).transactionsRequests
      = (mkTxRequestBundles s.transactionsRequests s.nextReqId W).1 := by
  unfold updateObservedWallets
  rw [refreshTransactionData_transactionsRequests]

/- ------------------------------------------------------------------ -/
/- Theorems: C1, C5                                                    -/
/- ------------------------------------------------------------------ -/

/-- C1 counterexample: on the duplicate id list `["a", "a"]`, starting
from the empty store, `updateObservedWallets` leaves two bundles whose
`walletId` is `"a"` — the claim that every id of the given list has
exactly one bundle fails for lists with repeated ids. -/
theorem updateObservedWallets_duplicate_ids :
    ((updateObservedWallets ⟨[], [], 0⟩ none [] ["a", "a"]).transactionsRequests.countP
        (fun b => b.walletId == "a")) = 2
    ∧ ((updateObservedWallets ⟨[], [], 0⟩ none [] ["a", "a"]).transactionsRequests.countP
        (fun b => b.walletId == "a")) ≠ 1 := by
  decide

/-- C1 (amended): for every duplicate-free wallet-id list `W`, after
`updateObservedWallets(W)` the `walletId` fields of
`transactionsRequests` are exactly the set `W`: every id of `W` has
exactly one bundle, and every bundle's id lies in `W`. -/
theorem updateObservedWallets_ids_exact (s : TxStoreState)
    (active : Option String) (allWallets W : List String)
    (hnd : W.Nodup) :
    (∀ wid ∈ W,
        ((updateObservedWallets s active allWallets W).transactionsRequests.countP
          (fun b => b.walletId == wid)) = 1)
    ∧ (∀ b ∈ (updateObservedWallets s active allWallets W).transactionsRequests,
        b.walletId ∈ W) := by
  have hmap := updateObservedWallets_map_walletId s active allWallets W
  constructor
  · intro wid hw
    have hcnt : ((updateObservedWallets s active allWallets W).transactionsRequests.map
        (fun b => b.walletId)).countP (fun x => x == wid) = 1 := by
      rw [hmap]
      have := List.count_eq_one_of_mem hnd hw
      simpa [List.count] using this
    rw [List.countP_map] at hcnt
    simpa [Function.comp] using hcnt
  · intro b hb
    have : b.walletId
        ∈ (updateObservedWallets s active allWallets W).transactionsRequests.map
          (fun b => b.walletId) :=
      List.mem_map_of_mem _ hb
    rwa [hmap] at this

/-- C1 amended-theorem witness on a concrete duplicate-free list. -/
theorem updateObservedWallets_ids_exact_witness :
    ((updateObservedWallets ⟨[], [], 0⟩ none [] ["a", "b"]).transactionsRequests.countP
        (fun b => b.walletId == "a")) = 1 :=
  (updateObservedWallets_ids_exact ⟨[], [], 0⟩ none [] ["a", "b"]
    (by decide)).1 "a" (by decide)

/-- C5 counterexample: a store already tracking wallet `"a"` with
request identities 3, 0, 1, 2 (counter 4), after
`updateObservedWallets(["a"])`, holds a bundle with exactly the same
request identities: the pre-existing request objects ARE retained for
already-tracked ids, refuting the claim that every id gets freshly
created requests and no prior request object survives. -/
theorem updateObservedWallets_retains_old_requests :
    (updateObservedWallets ⟨[⟨"a", 3, 0, 1, 2⟩], [], 4⟩ none []
        ["a"]).transactionsRequests
      = [⟨"a", 3, 0, 1, 2⟩] := by
  decide

/-- C5 (amended): `updateObservedWallets` replaces the bundle array
wholesale — one bundle per given id, in order — but bundles are not all
fresh: for an id already tracked, the new bundle is exactly the old one
(same request objects, preserving their caches); only ids not
previously tracked get bundles whose request identities are all fresh
(distinct from every request held before the call). -/
theorem updateObservedWallets_reuse_or_fresh (s : TxStoreState)
    (active : Option String) (allWallets W : List String)
    (hwf : wfTxStore s) :
    ((updateObservedWallets s active allWallets W).transactionsRequests.map
        (fun b => b.walletId) = W)
    ∧ (∀ b ∈ (updateObservedWallets s active allWallets W).transactionsRequests,
        ∀ b0, findTxRequest s.transactionsRequests b.walletId = some b0
          → b = b0)
    ∧ (∀ b ∈ (updateObservedWallets s active allWallets W).transactionsRequests,
        findTxRequest s.transactionsRequests b.walletId = none
          → ∀ i ∈ bundleReqIds b, i ∉ stateReqIds s) := by
  refine ⟨updateObservedWallets_map_walletId s active allWallets W, ?_, ?_⟩
  · intro b hb b0 hfound
    rw [updateObservedWallets_transactionsRequests] at hb
    rcases mkTxRequestBundles_spec s.transactionsRequests W s.nextReqId b hb
      with ⟨b1, h1, h2⟩ | ⟨h1, _⟩
    · rw [h1] at hfound
      cases hfound
      exact h2
    · rw [h1] at hfound
      cases hfound
  · intro b hb hnone i hi hmem
    rw [updateObservedWallets_transactionsRequests] at hb
    rcases mkTxRequestBundles_spec s.transactionsRequests W s.nextReqId b hb
      with ⟨b1, h1, _⟩ | ⟨_, hge⟩
    · rw [hnone] at h1
      cases h1
    · have hlt := hwf i hmem
      have := hge i hi
      omega

/-- C5 amended-theorem witness: wholesale id replacement on a concrete
store. -/
theorem updateObservedWallets_reuse_or_fresh_witness :
    (updateObservedWallets ⟨[⟨"a", 3, 0, 1, 2⟩], [], 4⟩ none []
        ["a", "b"]).transactionsRequests.map (fun b => b.walletId)
      = ["a", "b"] :=
  (updateObservedWallets_reuse_or_fresh ⟨[⟨"a", 3, 0, 1, 2⟩], [], 4⟩ none []
    ["a", "b"] (by unfold wfTxStore; decide)).1


/- ------------------------------------------------------------------ -/
/- Search-options lemmas                                               -/
/- ------------------------------------------------------------------ -/

theorem find_append_left {α : Type} (l l2 : List α) (p : α → Bool) (y : α)
    (h : l.find? p = some y) : (l ++ l2).find? p = some y := by
  simp [h]

theorem find_append_right {α : Type} (l l2 : List α) (p : α → Bool)
    (h : l.find? p = none) : (l ++ l2).find? p = l2.find? p := by
  rw [List.find?_append, h]
  rfl

theorem searchOptionsGet_walletLimit (s : TxStoreState)
    (a : Option String) (wid : String) :
    walletLimit (searchOptionsGet s a).2 wid = walletLimit s wid := by
  cases a with
  | none => rfl
  | some w =>
      unfold searchOptionsGet
      cases hf : s.searchOptionsForWallets.find? (fun p => p.1 == w) with
      | some p => simp [hf]
      | none =>
          simp only [hf]
          unfold walletLimit
          cases hw : s.searchOptionsForWallets.find? (fun p => p.1 == wid) with
          | some q =>
              rw [find_append_left _ _ _ q hw]
          | none =>
              rw [find_append_right _ _ _ hw]
              by_cases he : w = wid
              · subst he
                simp [List.find?]
              · have hbe : (w == wid) = false := by
                  simpa using he
                simp [List.find?, hbe]

theorem searchOptionsGet_walletSkip (s : TxStoreState)
    (a : Option String) (wid : String) :
    walletSkip (searchOptionsGet s a).2 wid = walletSkip s wid := by
  cases a with
  | none => rfl
  | some w =>
      unfold searchOptionsGet
      cases hf : s.searchOptionsForWallets.find? (fun p => p.1 == w) with
      | some p => simp [hf]
      | none =>
          simp only [hf]
          unfold walletSkip
          cases hw : s.searchOptionsForWallets.find? (fun p => p.1 == wid) with
          | some q =>
              rw [find_append_left _ _ _ q hw]
          | none =>
              rw [find_append_right _ _ _ hw]
              by_cases he : w = wid
              · subst he
                simp [List.find?]
              · have hbe : (w == wid) = false := by
                  simpa using he
                simp [List.find?, hbe]

theorem searchOptionsGet_some_val (s : TxStoreState) (w : String) :
    (searchOptionsGet s (some w)).1
      = some ⟨walletLimit s w, walletSkip s w⟩ := by
  unfold searchOptionsGet walletLimit walletSkip
  cases hf : s.searchOptionsForWallets.find? (fun p => p.1 == w) <;> simp [hf]

theorem searchOptionsGet_entry_exists (s : TxStoreState) (w : String) :
    ((searchOptionsGet s (some w)).2.searchOptionsForWallets.find?
        (fun p => p.1 == w)).isSome = true := by
  unfold searchOptionsGet
  cases hf : s.searchOptionsForWallets.find? (fun p => p.1 == w) with
  | some p => simp [hf]
  | none =>
      simp only [hf]
      rw [find_append_right _ _ _ hf]
      simp [List.find?]

theorem find_map_setLimit_self (l : List (String × SearchOptions))
    (w : String) (n : Nat) :
    (l.map (fun p => if p.1 == w then (p.1, { p.2 with limit := n }) else p)).find?
        (fun p => p.1 == w)
      = (l.find? (fun p => p.1 == w)).map
          (fun p => (p.1, { p.2 with limit := n })) := by
  induction l with
  | nil => rfl
  | cons hd tl ih =>
      by_cases hp : hd.1 == w
      · simp only [List.map_cons, List.find?, if_pos hp, hp, Option.map]
        simp [hp]
      · simp only [List.map_cons, List.find?, if_neg hp, Bool.not_eq_true] at *
        simp only [List.find?, hp, ih]

theorem find_map_setLimit_ne (l : List (String × SearchOptions))
    (w wid : String) (n : Nat) (hne : wid ≠ w) :
    (l.map (fun p => if p.1 == w then (p.1, { p.2 with limit := n }) else p)).find?
        (fun p => p.1 == wid)
      = l.find? (fun p => p.1 == wid) := by
  induction l with
  | nil => rfl
  | cons hd tl ih =>
      by_cases hw : hd.1 == w
      · by_cases hpw : hd.1 == wid
        · have heq : w = wid := by
            have h1 : hd.1 = w := by simpa using hw
            have h2 : hd.1 = wid := by simpa using hpw
            rw [← h1, h2]
          exact absurd heq.symm hne
        · have hpw2 : (hd.1 == wid) = false := by
            simpa using hpw
          simp only [List.map_cons, List.find?, if_pos hw, hpw2, ih]
      · by_cases hpw : hd.1 == wid
        · simp only [List.map_cons, List.find?, if_neg hw, hpw]
        · have hpw2 : (hd.1 == wid) = false := by
            simpa using hpw
          simp only [List.map_cons, List.find?, if_neg hw, hpw2, ih]

theorem walletLimit_setSearchLimit_self (t : TxStoreState) (w : String)
    (n : Nat)
    (h : (t.searchOptionsForWallets.find? (fun p => p.1 == w)).isSome = true) :
    walletLimit (setSearchLimit t w n) w = n := by
  unfold walletLimit setSearchLimit
  rw [show ({ t with searchOptionsForWallets :=
      t.searchOptionsForWallets.map (fun p =>
        if p.1 == w then (p.1, { p.2 with limit := n }) else p)
      } : TxStoreState).searchOptionsForWallets
    = t.searchOptionsForWallets.map (fun p =>
        if p.1 == w then (p.1, { p.2 with limit := n }) else p) from rfl]
  rw [find_map_setLimit_self]
  cases hf : t.searchOptionsForWallets.find? (fun p => p.1 == w) with
  | none => rw [hf] at h; simp at h
  | some p => simp

theorem walletLimit_setSearchLimit_ne (t : TxStoreState) (w wid : String)
    (n : Nat) (hne : wid ≠ w) :
    walletLimit (setSearchLimit t w n) wid = walletLimit t wid := by
  unfold walletLimit setSearchLimit
  rw [show ({ t with searchOptionsForWallets :=
      t.searchOptionsForWallets.map (fun p =>
        if p.1 == w then (p.1, { p.2 with limit := n }) else p)
      } : TxStoreState).searchOptionsForWallets
    = t.searchOptionsForWallets.map (fun p =>
        if p.1 == w then (p.1, { p.2 with limit := n }) else p) from rfl]
  rw [find_map_setLimit_ne _ _ _ _ hne]

theorem walletSkip_setSearchLimit (t : TxStoreState) (w wid : String)
    (n : Nat) :
    walletSkip (setSearchLimit t w n) wid = walletSkip t wid := by
  unfold walletSkip setSearchLimit
  rw [show ({ t with searchOptionsForWallets :=
      t.searchOptionsForWallets.map (fun p =>
        if p.1 == w then (p.1, { p.2 with limit := n }) else p)
      } : TxStoreState).searchOptionsForWallets
    = t.searchOptionsForWallets.map (fun p =>
        if p.1 == w then (p.1, { p.2 with limit := n }) else p) from rfl]
  by_cases hne : wid = w
  · subst hne
    rw [find_map_setLimit_self]
    cases hf : t.searchOptionsForWallets.find? (fun p => p.1 == wid) <;> simp
  · rw [find_map_setLimit_ne _ _ _ _ hne]

theorem walletLimit_refresh (a : Option String) (ws : List String)
    (s : TxStoreState) (wid : String) :
    walletLimit (refreshTransactionData a s ws).1 wid = walletLimit s wid := by
  induction ws generalizing s with
  | nil => rfl
  | cons w rest ih =>
      show walletLimit (refreshTransactionData a _ rest).1 wid = _
      rw [ih]
      show walletLimit (searchOptionsGet s a).2 wid = _
      rw [searchOptionsGet_walletLimit]

theorem walletSkip_refresh (a : Option String) (ws : List String)
    (s : TxStoreState) (wid : String) :
    walletSkip (refreshTransactionData a s ws).1 wid = walletSkip s wid := by
  induction ws generalizing s with
  | nil => rfl
  | cons w rest ih =>
      show walletSkip (refreshTransactionData a _ rest).1 wid = _
      rw [ih]
      show walletSkip (searchOptionsGet s a).2 wid = _
      rw [searchOptionsGet_walletSkip]

theorem walletLimit_updateObserved (s : TxStoreState) (a : Option String)
    (ws ids : List String) (wid : String) :
    walletLimit (updateObservedWallets s a ws ids) wid = walletLimit s wid := by
  unfold updateObservedWallets
  rw [walletLimit_refresh]
  rfl

theorem increaseSearchLimit_limit_eq (s : TxStoreState) (w : String)
    (ws : List String) :
    walletLimit (increaseSearchLimit s (some w) ws) w
      = walletLimit s w + SEARCH_LIMIT_INCREASE := by
  have h1 := searchOptionsGet_some_val s w
  unfold increaseSearchLimit
  simp only [h1]
  rw [walletLimit_refresh,
    walletLimit_setSearchLimit_self _ _ _ (searchOptionsGet_entry_exists s w)]

theorem increaseSearchLimit_mono (s : TxStoreState) (a : Option String)
    (ws : List String) (wid : String) :
    walletLimit s wid ≤ walletLimit (increaseSearchLimit s a ws) wid := by
  cases a with
  | none => exact Nat.le_refl _
  | some w =>
      by_cases he : wid = w
      · subst he
        rw [increaseSearchLimit_limit_eq]
        omega
      · have h1 := searchOptionsGet_some_val s w
        unfold increaseSearchLimit
        simp only [h1]
        rw [walletLimit_refresh, walletLimit_setSearchLimit_ne _ _ _ _ he,
          searchOptionsGet_walletLimit]

theorem walletLimit_step_mono (s : TxStoreState) (op : TxStoreOp)
    (wid : String) :
    walletLimit s wid ≤ walletLimit (stepTxStore s op) wid := by
  cases op with
  | increaseLimit a ws => exact increaseSearchLimit_mono s a ws wid
  | readSearchOptions a =>
      rw [stepTxStore, searchOptionsGet_walletLimit]
  | refreshData a ws =>
      rw [stepTxStore, walletLimit_refresh]
  | updateObserved a ws ids =>
      rw [stepTxStore, walletLimit_updateObserved]

theorem walletLimit_run_mono (ops : List TxStoreOp) (s : TxStoreState)
    (wid : String) :
    walletLimit s wid ≤ walletLimit (runTxStore s ops) wid := by
  induction ops generalizing s with
  | nil => exact Nat.le_refl _
  | cons op rest ih =>
      exact Nat.le_trans (walletLimit_step_mono s op wid) (ih _)

/- ------------------------------------------------------------------ -/
/- Theorems: C6, C9                                                    -/
/- ------------------------------------------------------------------ -/

/-- C6: `loadMoreTransactions` (the `_increaseSearchLimit` handler)
adds exactly `SEARCH_LIMIT_INCREASE` to the active wallet's search
limit, and across any sequence of store operations no wallet's search
limit ever decreases. -/
theorem loadMoreTransactions_limit_behavior (s : TxStoreState) (w : String)
    (ws : List String) (ops : List TxStoreOp) (wid : String) :
    walletLimit (increaseSearchLimit s (some w) ws) w
      = walletLimit s w + SEARCH_LIMIT_INCREASE
    ∧ walletLimit s wid ≤ walletLimit (runTxStore s ops) wid :=
  ⟨increaseSearchLimit_limit_eq s w ws, walletLimit_run_mono ops s wid⟩

theorem activeSearchPair_head_state (s : TxStoreState) (a : Option String)
    (n : Nat) :
    activeSearchPair { (searchOptionsGet s a).2 with nextReqId := n } a
      = activeSearchPair s a := by
  cases a with
  | none => rfl
  | some w =>
      have hl : walletLimit { (searchOptionsGet s (some w)).2 with
          nextReqId := n } w = walletLimit s w := by
        show walletLimit (searchOptionsGet s (some w)).2 w = _
        rw [searchOptionsGet_walletLimit]
      have hs : walletSkip { (searchOptionsGet s (some w)).2 with
          nextReqId := n } w = walletSkip s w := by
        show walletSkip (searchOptionsGet s (some w)).2 w = _
        rw [searchOptionsGet_walletSkip]
      show (walletLimit { (searchOptionsGet s (some w)).2 with nextReqId := n } w,
            walletSkip { (searchOptionsGet s (some w)).2 with nextReqId := n } w)
          = (walletLimit s w, walletSkip s w)
      rw [hl, hs]

theorem refresh_params_walletIds (a : Option String) (ws : List String)
    (s : TxStoreState) :
    (refreshTransactionData a s ws).2.map (fun p => p.walletId) = ws := by
  induction ws generalizing s with
  | nil => rfl
  | cons w rest ih =>
      show (⟨w, _, _⟩ :: (refreshTransactionData a _ rest).2).map
        (fun p => p.walletId) = w :: rest
      rw [List.map_cons, ih]

theorem refresh_params_pair (a : Option String) (ws : List String)
    (s : TxStoreState) :
    ∀ p ∈ (refreshTransactionData a s ws).2,
      p.limit = (activeSearchPair s a).1
      ∧ p.skip = (activeSearchPair s a).2 := by
  induction ws generalizing s with
  | nil =>
      intro p hp
      simp [refreshTransactionData] at hp
  | cons w rest ih =>
      intro p hp
      have hp2 : p = (⟨w,
            match (searchOptionsGet s a).1 with
            | some o => o.limit
            | none => INITIAL_SEARCH_LIMIT,
            match (searchOptionsGet s a).1 with
            | some o => o.skip
            | none => SEARCH_SKIP⟩ : GetTransactionsParams)
          ∨ p ∈ (refreshTransactionData a
              { (searchOptionsGet s a).2 with nextReqId :=
                (getTransactionsAllRequest
                  (searchOptionsGet s a).2.transactionsRequests
                  (getTransactionsRecentRequest
                    (searchOptionsGet s a).2.transactionsRequests
                    (searchOptionsGet s a).2.nextReqId w).2 w).2 } rest).2 := by
        simpa [refreshTransactionData] using hp
      rcases hp2 with hp2 | hp2
      · subst hp2
        cases a with
        | none => exact ⟨rfl, rfl⟩
        | some w0 =>
            rw [searchOptionsGet_some_val]
            exact ⟨rfl, rfl⟩
      · have := ih _ p hp2
        rwa [activeSearchPair_head_state] at this

/-- C9: in one `_refreshTransactionData` run, the recent request of
every wallet in the wallets store's list is executed with the single
`{limit, skip}` pair read from the ACTIVE wallet's search options (the
initial constants when no wallet is active) — not each wallet's own
options: any two executed recent requests carry the same limit and the
same skip. -/
theorem refresh_uniform_search_params (s : TxStoreState)
    (active : Option String) (ws : List String) :
    ((refreshTransactionData active s ws).2.map (fun p => p.walletId) = ws)
    ∧ (∀ p ∈ (refreshTransactionData active s ws).2,
        p.limit = (activeSearchPair s active).1
        ∧ p.skip = (activeSearchPair s active).2)
    ∧ (∀ p ∈ (refreshTransactionData active s ws).2,
        ∀ q ∈ (refreshTransactionData active s ws).2,
        p.limit = q.limit ∧ p.skip = q.skip) := by
  refine ⟨refresh_params_walletIds active ws s,
    refresh_params_pair active ws s, ?_⟩
  intro p hp q hq
  have h1 := refresh_params_pair active ws s p hp
  have h2 := refresh_params_pair active ws s q hq
  exact ⟨h1.1.trans h2.1.symm, h1.2.trans h2.2.symm⟩

/-- C9 witness: two tracked wallets, no active wallet; the first
executed recent request carries the initial limit and skip. -/
theorem refresh_uniform_search_params_witness :
    (⟨"a", INITIAL_SEARCH_LIMIT, SEARCH_SKIP⟩ : GetTransactionsParams).limit
      = (activeSearchPair ⟨[], [], 0⟩ none).1
    ∧ (⟨"a", INITIAL_SEARCH_LIMIT, SEARCH_SKIP⟩ : GetTransactionsParams).skip
      = (activeSearchPair ⟨[], [], 0⟩ none).2 :=
  (refresh_uniform_search_params ⟨[], [], 0⟩ none ["a", "b"]).2.1
    ⟨"a", INITIAL_SEARCH_LIMIT, SEARCH_SKIP⟩ (by decide)
